import Mathlib

/-!
Verification of the promptforge template-classification and chat-assembly
core against its specification.

The Rust sources embedded here are `src/template_format.rs`,
`src/chat_prompt_template.rs` and `src/chat_template.rs`.  The crate
modules `braces.rs`, `role.rs`, `messages_placeholder.rs`,
`message_like.rs`, `placeholder.rs` and `template.rs` are not part of the
provided sources; the definitions standing in for them are modelled from
the specification (each such definition is marked in its doc comment).
The external variable-substitution engine and the JSON decoder for
placeholder payloads are out of scope per the specification; they appear
as parameters (`Engine`, `Decoder`) of the rendering functions.
-/

namespace PromptForge

/-- Message roles, from the spec's Role model (role.rs is not in the
provided sources): System, Human, Ai, Placeholder. -/
inductive Role where
  | System
  | Human
  | Ai
  | Placeholder
deriving DecidableEq, Repr

/-- A resolved message: a role plus final string content.  Modelled from
the spec: the concrete message representation (messageforge) is external;
a message exposes a role and string content. -/
structure BaseMessage where
  role : Role
  content : String
deriving DecidableEq, Repr

/-- The error enum of `template_format.rs` (TemplateError).  The payload of
`RuntimeError` is the rendering engine's error text. -/
inductive TemplateError where
  | MalformedTemplate (msg : String)
  | UnsupportedFormat (msg : String)
  | MissingVariable (name : String)
  | RuntimeError (msg : String)
  | InvalidRoleError
  | TomlDeserializationError (msg : String)
deriving DecidableEq, Repr

/-- The `Display` implementation for `TemplateError` in
`template_format.rs` (used by `e.to_string()` at the sync render's
error-wrapping site). -/
def TemplateError.display : TemplateError → String
  | .MalformedTemplate msg => "Malformed template: " ++ msg
  | .UnsupportedFormat msg => "Unsupported format: " ++ msg
  | .MissingVariable msg => "Missing variable: " ++ msg
  | .RuntimeError msg => "Render error: " ++ msg
  | .InvalidRoleError => "Invalid role error"
  | .TomlDeserializationError msg => "TOML deserialization error: " ++ msg

/-- The template-format enum of `template_format.rs`. -/
inductive TemplateFormat where
  | PlainText
  | FmtString
  | Mustache
deriving DecidableEq, Repr

/-! ### Brace scanner

Modelled from the spec (braces.rs is not in the provided sources),
section 4.1: counts of left and right braces, absence of braces,
all-double-brace form, all-single-brace form, and detection of a braced
span holding more than one whitespace-delimited token.  The models are
checked below against the unit tests of `template_format.rs`, which
exercise these predicates through `is_mustache` / `is_fmtstring` /
`is_valid_template`. -/

/-- Modelled from the spec: total count of left-brace characters. -/
def count_left_braces (s : List Char) : Nat :=
  s.countP (fun c => c == '\x7b')

/-- Modelled from the spec: total count of right-brace characters. -/
def count_right_braces (s : List Char) : Nat :=
  s.countP (fun c => c == '\x7d')

/-- Modelled from the spec: the string contains zero brace characters. -/
def has_no_braces (s : List Char) : Bool :=
  count_left_braces s == 0 && count_right_braces s == 0

/-- State machine for the all-double-brace check: outside brace spans
(`inside = false`) an opening must be a doubled left brace, a right brace
is illegal; inside a span a closing must be a doubled right brace, a left
brace is illegal; the scan must end outside. -/
def onlyDoubleAux : List Char → Bool → Bool
  | [], inside => !inside
  | '\x7b' :: '\x7b' :: rest, false => onlyDoubleAux rest true
  | '\x7b' :: _, _ => false
  | '\x7d' :: '\x7d' :: rest, true => onlyDoubleAux rest false
  | '\x7d' :: _, _ => false
  | _ :: rest, inside => onlyDoubleAux rest inside

/-- Modelled from the spec: every brace run is a well-formed doubled pair
with no singleton braces present (and at least one brace occurs). -/
def has_only_double_braces (s : List Char) : Bool :=
  !has_no_braces s && onlyDoubleAux s false

/-- State machine for the all-single-brace check: doubled left or right
braces are illegal everywhere; outside a span a right brace is illegal;
inside a span a further left brace is illegal; the scan must end
outside. -/
def onlySingleAux : List Char → Bool → Bool
  | [], inside => !inside
  | '\x7b' :: '\x7b' :: _, _ => false
  | '\x7b' :: rest, false => onlySingleAux rest true
  | '\x7b' :: _, true => false
  | '\x7d' :: '\x7d' :: _, _ => false
  | '\x7d' :: rest, true => onlySingleAux rest false
  | '\x7d' :: _, false => false
  | _ :: rest, inside => onlySingleAux rest inside

/-- Modelled from the spec: every brace run is a well-formed single pair
with no doubled braces present (and at least one brace occurs). -/
def has_only_single_braces (s : List Char) : Bool :=
  !has_no_braces s && onlySingleAux s false

/-- Scanner for multi-token brace spans.  The state is `none` outside a
span, and `some (tokens, inWord)` inside one; on closing a span the span
is reported if it held two or more whitespace-delimited tokens. -/
def multiWordsAux : List Char → Option (Nat × Bool) → Bool
  | [], _ => false
  | c :: rest, none =>
    if c == '\x7b' then multiWordsAux rest (some (0, false))
    else multiWordsAux rest none
  | c :: rest, some (n, w) =>
    if c == '\x7b' then multiWordsAux rest (some (n, w))
    else if c == '\x7d' then
      if 2 ≤ n then true else multiWordsAux rest none
    else if c.isWhitespace then multiWordsAux rest (some (n, false))
    else if w then multiWordsAux rest (some (n, w))
    else multiWordsAux rest (some (n + 1, true))

/-- Modelled from the spec: some single-or-double-braced span contains
more than one whitespace-delimited token. -/
def has_multiple_words_between_braces (s : List Char) : Bool :=
  multiWordsAux s none

/-! ### Format classifier (`template_format.rs`, in the provided sources) -/

/-- `is_plain_text` from `template_format.rs`. -/
def is_plain_text (s : List Char) : Bool :=
  has_no_braces s

/-- `is_mustache` from `template_format.rs`. -/
def is_mustache (s : List Char) : Bool :=
  has_only_double_braces s && !has_multiple_words_between_braces s

/-- `is_fmtstring` from `template_format.rs`. -/
def is_fmtstring (s : List Char) : Bool :=
  has_only_single_braces s && !has_multiple_words_between_braces s

/-- `is_valid_template` from `template_format.rs`: brace-free strings are
valid; otherwise brace counts must balance and the string must be
all-double or all-single style. -/
def is_valid_template (s : List Char) : Bool :=
  if has_no_braces s then true
  else
    count_left_braces s == count_right_braces s
      && (has_only_double_braces s || has_only_single_braces s)

/-- `TemplateFormat::from_template` from `template_format.rs`: reject
invalid templates as MalformedTemplate, then classify as FmtString,
Mustache or PlainText in that order, else UnsupportedFormat. -/
def TemplateFormat.from_template (template : String) :
    Except TemplateError TemplateFormat :=
  if !is_valid_template template.data then
    .error (.MalformedTemplate "Malformed template")
  else if is_fmtstring template.data then
    .ok .FmtString
  else if is_mustache template.data then
    .ok .Mustache
  else if is_plain_text template.data then
    .ok .PlainText
  else
    .error (.UnsupportedFormat "Unsupported template format")

/-! ### Placeholder construction (messages_placeholder.rs / placeholder.rs
are not in the provided sources; modelled from the spec, section 4.4) -/

/-- Modelled from the spec: a variable name is an identifier of letters,
digits and underscores, not leading with a digit. -/
def is_valid_identifier (s : List Char) : Bool :=
  match s with
  | [] => false
  | c :: rest =>
    (c.isAlpha || c == '_') && rest.all (fun d => d.isAlphanum || d == '_')

/-- Helper: the input must consist of a body followed by exactly one
closing right brace at the end; returns that body. -/
def splitCloseSingle : List Char → Option (List Char)
  | [] => none
  | ['\x7d'] => some []
  | c :: rest => (splitCloseSingle rest).map (fun body => c :: body)

/-- Helper: the input must consist of a body followed by exactly two
closing right braces at the end; returns that body. -/
def splitCloseDouble : List Char → Option (List Char)
  | ['\x7d', '\x7d'] => some []
  | c :: rest => (splitCloseDouble rest).map (fun body => c :: body)
  | _ => none

/-- Modelled from the spec: extract the variable name from a template that
is a single bare variable reference, either single-brace or double-brace,
with no surrounding text; any other shape yields none. -/
def extract_placeholder_variable (s : String) : Option String :=
  match s.data with
  | '\x7b' :: '\x7b' :: rest =>
    match splitCloseDouble rest with
    | some body => if is_valid_identifier body then some (String.mk body) else none
    | none => none
  | '\x7b' :: rest =>
    match splitCloseSingle rest with
    | some body => if is_valid_identifier body then some (String.mk body) else none
    | none => none
  | _ => none

/-- Modelled from the spec: a history-splice point — a variable name, an
optional flag (default false) and a message-count limit (default a large
positive sentinel; zero or less means no truncation is applied). -/
structure MessagesPlaceholder where
  variable_name : String
  optional : Bool
  n_messages : Int
deriving DecidableEq, Repr

/-- Modelled from the spec: the default message-count limit sentinel. -/
def MessagesPlaceholder.DEFAULT_LIMIT : Int := 1000

/-- Modelled from the spec: `MessagesPlaceholder::try_from` — the template
must be a single variable reference naming a valid identifier; otherwise
MalformedTemplate.  Optionality and limit take their defaults. -/
def MessagesPlaceholder.try_from (s : String) :
    Except TemplateError MessagesPlaceholder :=
  match extract_placeholder_variable s with
  | some name => .ok ⟨name, false, MessagesPlaceholder.DEFAULT_LIMIT⟩
  | none => .error (.MalformedTemplate s)

/-! ### Template entries and the MessageLike union (template.rs and
message_like.rs are not in the provided sources; modelled from the spec,
sections 2 and 3) -/

/-- Modelled from the spec: a template entry wraps the raw template string
and its computed format.  Stands for both `Template` and `PromptTemplate`
of the crate, which the spec describes as one component. -/
structure Template where
  template : String
  template_format : TemplateFormat
deriving DecidableEq, Repr

/-- Modelled from the spec: classify a raw string and wrap it with its
format (`Template::from_template` / `PromptTemplate::from_template`). -/
def Template.from_template (s : String) : Except TemplateError Template :=
  (TemplateFormat.from_template s).map (fun fmt => ⟨s, fmt⟩)

/-- The closed MessageLike union: a resolved message, a role with a
pending template, or a placeholder (message_like.rs, modelled from the
spec's closed three-shape union). -/
inductive MessageLike where
  | BaseMessage (m : BaseMessage)
  | RolePromptTemplate (role : Role) (template : Template)
  | Placeholder (p : MessagesPlaceholder)
deriving DecidableEq, Repr

/-- Modelled from the spec: `Role::to_message` maps System, Human and Ai
to a resolved message carrying the text; Placeholder is not directly
convertible and fails. -/
def Role.to_message (r : Role) (text : String) :
    Except TemplateError BaseMessage :=
  match r with
  | .Placeholder => .error .InvalidRoleError
  | r => .ok ⟨r, text⟩

/-! ### Variable mappings and the external collaborators -/

/-- The runtime variable mapping (the Rust `HashMap<&str, &str>`),
modelled as an association list queried by key. -/
abbrev VarMap : Type := List (String × String)

/-- Key lookup in a variable mapping (the Rust `variables.get(name)`). -/
def lookupVar (vars : VarMap) (key : String) : Option String :=
  match vars with
  | [] => none
  | (k, v) :: rest => if k == key then some v else lookupVar rest key

/-- The external rendering engine of the spec's section 6: renders a
pending template against a variable mapping, or fails with an error that
is already a TemplateError (`Template::format` / `PromptTemplate::format`
are not in the provided sources; rendering fans out to this contract). -/
abbrev Engine : Type := Template → VarMap → Except TemplateError String

/-- The external JSON decoder for placeholder payloads
(`serde_json::from_str::<Vec<MessageEnum>>`): decodes a string to an
ordered message list or fails with a decode-error text. -/
abbrev Decoder : Type := String → Except String (List BaseMessage)

/-! ### Chat assembly: construction (`from_messages`)

The bodies of `ChatPromptTemplate::from_messages` and
`ChatTemplate::from_messages` in the provided sources are identical
(one takes `&[(Role, &str)]`, the other an iterator of `(Role, String)`;
one names the wrapper `PromptTemplate`, the other `Template`, both
modelled above as `Template`), so the common body is embedded once. -/

/-- The common loop body of both `from_messages` constructors: for each
(role, template) pair in order, a Placeholder role is parsed as a
placeholder entry; otherwise the template is classified and appended as a
resolved message (PlainText) or as a pending role-template entry.  The
first failure aborts the whole construction. -/
def buildEntries : List (Role × String) → Except TemplateError (List MessageLike)
  | [] => .ok []
  | (role, tmpl) :: rest =>
    if role = Role.Placeholder then
      match MessagesPlaceholder.try_from tmpl with
      | .error e => .error e
      | .ok placeholder =>
        (buildEntries rest).map (fun l => .Placeholder placeholder :: l)
    else
      match Template.from_template tmpl with
      | .error e => .error e
      | .ok prompt_template =>
        match prompt_template.template_format with
        | .PlainText =>
          match role.to_message tmpl with
          | .error _ => .error .InvalidRoleError
          | .ok base_message =>
            (buildEntries rest).map (fun l => .BaseMessage base_message :: l)
        | _ =>
          (buildEntries rest).map
            (fun l => .RolePromptTemplate role prompt_template :: l)

/-- The synchronous chat template of `chat_prompt_template.rs`: an ordered
sequence of MessageLike entries. -/
structure ChatPromptTemplate where
  messages : List MessageLike
deriving DecidableEq, Repr

/-- The asynchronous chat template of `chat_template.rs`: an ordered
sequence of MessageLike entries. -/
structure ChatTemplate where
  messages : List MessageLike
deriving DecidableEq, Repr

/-- `ChatPromptTemplate::from_messages` from `chat_prompt_template.rs`. -/
def ChatPromptTemplate.from_messages (msgs : List (Role × String)) :
    Except TemplateError ChatPromptTemplate :=
  (buildEntries msgs).map ChatPromptTemplate.mk

/-- `ChatTemplate::from_messages` from `chat_template.rs`. -/
def ChatTemplate.from_messages (msgs : List (Role × String)) :
    Except TemplateError ChatTemplate :=
  (buildEntries msgs).map ChatTemplate.mk

/-! ### Chat assembly: rendering (`format_messages` / `invoke`) -/

/-- The placeholder branch of `format_messages`, identical character for
character in `chat_prompt_template.rs` and `chat_template.rs`: an
optional placeholder renders to no messages; otherwise the variable is
looked up (absence is MissingVariable), its payload decoded (failure is
MalformedTemplate with the decode error), and a positive limit keeps only
that many leading messages. -/
def formatPlaceholder (decode : Decoder) (vars : VarMap)
    (p : MessagesPlaceholder) : Except TemplateError (List BaseMessage) :=
  if p.optional then .ok []
  else
    match lookupVar vars p.variable_name with
    | none => .error (.MissingVariable p.variable_name)
    | some payload =>
      match decode payload with
      | .error e =>
        .error (.MalformedTemplate ("Failed to deserialize placeholder: " ++ e))
      | .ok msgs =>
        .ok (if 0 < p.n_messages then msgs.take p.n_messages.toNat else msgs)

/-- One entry of the synchronous render
(`ChatPromptTemplate::format_messages`): a resolved message passes
through; a pending template is rendered by the engine, any engine error
being wrapped as `MalformedTemplate(e.to_string())`, and the rendered
text converted through the role; a placeholder follows
`formatPlaceholder`. -/
def formatEntrySync (engine : Engine) (decode : Decoder) (vars : VarMap) :
    MessageLike → Except TemplateError (List BaseMessage)
  | .BaseMessage base_message => .ok [base_message]
  | .RolePromptTemplate role template =>
    match engine template vars with
    | .error e => .error (.MalformedTemplate e.display)
    | .ok formatted_message =>
      match role.to_message formatted_message with
      | .error _ => .error .InvalidRoleError
      | .ok base_message => .ok [base_message]
  | .Placeholder placeholder => formatPlaceholder decode vars placeholder

/-- One entry of the asynchronous render
(`ChatTemplate::format_messages`): as the synchronous one, except the
engine's error propagates unchanged (`template.format(..)?`). -/
def formatEntryAsync (engine : Engine) (decode : Decoder) (vars : VarMap) :
    MessageLike → Except TemplateError (List BaseMessage)
  | .BaseMessage base_message => .ok [base_message]
  | .RolePromptTemplate role template =>
    match engine template vars with
    | .error e => .error e
    | .ok formatted_message =>
      match role.to_message formatted_message with
      | .error _ => .error .InvalidRoleError
      | .ok base_message => .ok [base_message]
  | .Placeholder placeholder => formatPlaceholder decode vars placeholder

/-- `collect::<Result<Vec<_>, _>>()`: gather the Ok values in order,
stopping at the first Err. -/
def collectResults {ε α : Type} : List (Except ε α) → Except ε (List α)
  | [] => .ok []
  | .ok a :: rest => (collectResults rest).map (fun l => a :: l)
  | .error e :: _ => .error e

/-- The `flat_map` step of the synchronous render: an Ok entry-result
spreads into one Ok per message, an Err entry-result becomes a single
Err. -/
def flattenResults {ε α : Type} (rs : List (Except ε (List α))) :
    List (Except ε α) :=
  rs.flatMap (fun r =>
    match r with
    | .ok msgs => msgs.map Except.ok
    | .error e => [.error e])

/-- `ChatPromptTemplate::format_messages` from `chat_prompt_template.rs`:
map each entry, spread per-message, and collect with first-error
short-circuit. -/
def ChatPromptTemplate.format_messages (engine : Engine) (decode : Decoder)
    (t : ChatPromptTemplate) (vars : VarMap) :
    Except TemplateError (List BaseMessage) :=
  collectResults (flattenResults (t.messages.map (formatEntrySync engine decode vars)))

/-- `ChatPromptTemplate::invoke` delegates to `format_messages`. -/
def ChatPromptTemplate.invoke (engine : Engine) (decode : Decoder)
    (t : ChatPromptTemplate) (vars : VarMap) :
    Except TemplateError (List BaseMessage) :=
  t.format_messages engine decode vars

/-- `ChatTemplate::format_messages` from `chat_template.rs`: all per-entry
results are gathered (`join_all`), collected with first-error
short-circuit, and the per-entry lists flattened. -/
def ChatTemplate.format_messages (engine : Engine) (decode : Decoder)
    (t : ChatTemplate) (vars : VarMap) :
    Except TemplateError (List BaseMessage) :=
  (collectResults (t.messages.map (formatEntryAsync engine decode vars))).map
    (fun vecs => vecs.flatten)

/-- `ChatTemplate::invoke` delegates to `format_messages`. -/
def ChatTemplate.invoke (engine : Engine) (decode : Decoder)
    (t : ChatTemplate) (vars : VarMap) :
    Except TemplateError (List BaseMessage) :=
  t.format_messages engine decode vars

/-! ### Composition (`impl Add`) -/

/-- `impl Add for ChatPromptTemplate`: the right operand's entries are
appended after the left's. -/
def ChatPromptTemplate.add (a b : ChatPromptTemplate) : ChatPromptTemplate :=
  ⟨a.messages ++ b.messages⟩

/-- `impl Add for ChatTemplate`: the right operand's entries are appended
after the left's. -/
def ChatTemplate.add (a b : ChatTemplate) : ChatTemplate :=
  ⟨a.messages ++ b.messages⟩

/-- The empty synchronous chat template. -/
def ChatPromptTemplate.empty : ChatPromptTemplate := ⟨[]⟩

/-- The empty asynchronous chat template. -/
def ChatTemplate.empty : ChatTemplate := ⟨[]⟩

/-! ### Discriminators used to state counterexamples -/

/-- Whether a classification result is an UnsupportedFormat error. -/
def resultIsUnsupported : Except TemplateError TemplateFormat → Bool
  | .error (.UnsupportedFormat _) => true
  | _ => false

/-- Whether a render result is a MissingVariable error. -/
def resultIsMissingVariable : Except TemplateError (List BaseMessage) → Bool
  | .error (.MissingVariable _) => true
  | _ => false

/-! ### Helper lemmas on the render pipelines -/

/-- Reference fold for rendering an entry list: per-entry results in
order, concatenated, first error short-circuiting. -/
def renderList (f : MessageLike → Except TemplateError (List BaseMessage)) :
    List MessageLike → Except TemplateError (List BaseMessage)
  | [] => .ok []
  | ml :: rest =>
    match f ml with
    | .error e => .error e
    | .ok ms =>
      match renderList f rest with
      | .error e => .error e
      | .ok tail => .ok (ms ++ tail)

theorem collectResults_map_ok {ε α : Type} (ls : List α) :
    collectResults (ε := ε) (ls.map Except.ok) = .ok ls := by
  induction ls with
  | nil => rfl
  | cons a rest ih => simp [collectResults, ih, Except.map]

theorem collectResults_append_ok {ε α : Type} (pre : List α)
    (rest : List (Except ε α)) :
    collectResults (pre.map Except.ok ++ rest)
      = (collectResults rest).map (fun l => pre ++ l) := by
  induction pre with
  | nil =>
    simp only [List.map_nil, List.nil_append]
    cases collectResults rest <;> simp [Except.map]
  | cons a pre ih =>
    simp only [List.map_cons, List.cons_append, collectResults, List.append_eq]
    rw [ih]
    cases collectResults rest <;> simp [Except.map]

theorem collectResults_first_error {ε α : Type} (pre : List α) (e : ε)
    (post : List (Except ε α)) :
    collectResults (pre.map Except.ok ++ .error e :: post) = .error e := by
  induction pre with
  | nil => rfl
  | cons a pre ih => simp [collectResults, ih, Except.map]

theorem flattenResults_cons {ε α : Type} (r : Except ε (List α))
    (rs : List (Except ε (List α))) :
    flattenResults (r :: rs)
      = (match r with
          | .ok msgs => msgs.map Except.ok
          | .error e => [.error e]) ++ flattenResults rs := by
  simp [flattenResults]

/-- The synchronous spread-then-collect render equals the reference
fold. -/
theorem sync_render_eq_renderList (f : MessageLike → Except TemplateError (List BaseMessage))
    (es : List MessageLike) :
    collectResults (flattenResults (es.map f)) = renderList f es := by
  induction es with
  | nil => rfl
  | cons ml rest ih =>
    rw [List.map_cons, flattenResults_cons]
    cases hf : f ml with
    | error e =>
      simp [renderList, hf, collectResults]
    | ok ms =>
      rw [collectResults_append_ok, ih]
      simp only [renderList, hf]
      cases renderList f rest <;> simp [Except.map]

/-- The asynchronous collect-then-flatten render equals the reference
fold. -/
theorem async_render_eq_renderList (f : MessageLike → Except TemplateError (List BaseMessage))
    (es : List MessageLike) :
    (collectResults (es.map f)).map (fun vecs => vecs.flatten) = renderList f es := by
  induction es with
  | nil => rfl
  | cons ml rest ih =>
    simp only [List.map_cons]
    cases hf : f ml with
    | error e => simp [renderList, hf, collectResults, Except.map]
    | ok ms =>
      simp only [renderList, hf, collectResults]
      rw [← ih]
      cases collectResults (rest.map f) <;> simp [Except.map]

/-- If every entry renders Ok, the reference fold returns the per-entry
lists flattened in order. -/
theorem renderList_all_ok (f : MessageLike → Except TemplateError (List BaseMessage))
    (es : List MessageLike) (ls : List (List BaseMessage))
    (h : es.map f = ls.map Except.ok) :
    renderList f es = .ok ls.flatten := by
  induction es generalizing ls with
  | nil =>
    cases ls with
    | nil => rfl
    | cons _ _ => simp at h
  | cons ml rest ih =>
    cases ls with
    | nil => simp at h
    | cons ms ls =>
      simp only [List.map_cons, List.cons.injEq] at h
      obtain ⟨h1, h2⟩ := h
      simp [renderList, h1, ih ls h2]

/-- If some entry renders Err and all earlier ones render Ok, the
reference fold returns that first error. -/
theorem renderList_first_error (f : MessageLike → Except TemplateError (List BaseMessage))
    (es : List MessageLike) (pre : List (List BaseMessage)) (e : TemplateError)
    (post : List (Except TemplateError (List BaseMessage)))
    (h : es.map f = pre.map Except.ok ++ .error e :: post) :
    renderList f es = .error e := by
  induction es generalizing pre with
  | nil => cases pre <;> simp at h
  | cons ml rest ih =>
    cases pre with
    | nil =>
      simp only [List.map_cons, List.map_nil, List.nil_append, List.cons.injEq] at h
      simp [renderList, h.1]
    | cons ms pre =>
      simp only [List.map_cons, List.cons_append, List.cons.injEq] at h
      obtain ⟨h1, h2⟩ := h
      simp [renderList, h1, ih pre h2]

/-- Unfolding of the reference fold's success on a cons cell. -/
theorem renderList_cons_ok_iff (f : MessageLike → Except TemplateError (List BaseMessage))
    (ml : MessageLike) (rest : List MessageLike) (o : List BaseMessage) :
    renderList f (ml :: rest) = .ok o ↔
      ∃ ms tail, f ml = .ok ms ∧ renderList f rest = .ok tail ∧ o = ms ++ tail := by
  cases hf : f ml with
  | error e => simp [renderList, hf]
  | ok ms =>
    cases hr : renderList f rest with
    | error e => simp [renderList, hf, hr]
    | ok tail =>
      simp only [renderList, hf, hr]
      constructor
      · intro h
        exact ⟨ms, tail, rfl, rfl, by cases h; rfl⟩
      · rintro ⟨ms', tail', hms, htail, ho⟩
        cases hms
        cases htail
        cases ho
        rfl

/-- A synchronous entry renders Ok to a value exactly when the
asynchronous entry does: the two per-entry functions differ only in how
an engine error is wrapped. -/
theorem formatEntry_ok_iff (engine : Engine) (decode : Decoder) (vars : VarMap)
    (ml : MessageLike) (o : List BaseMessage) :
    formatEntrySync engine decode vars ml = .ok o ↔
      formatEntryAsync engine decode vars ml = .ok o := by
  cases ml with
  | BaseMessage m => simp [formatEntrySync, formatEntryAsync]
  | Placeholder p => simp [formatEntrySync, formatEntryAsync]
  | RolePromptTemplate role template =>
    cases h : engine template vars <;>
      simp [formatEntrySync, formatEntryAsync, h]

/-- Pointwise success-agreeing entry functions give success-agreeing
reference folds. -/
theorem renderList_ok_iff (f g : MessageLike → Except TemplateError (List BaseMessage))
    (hfg : ∀ ml o, f ml = .ok o ↔ g ml = .ok o)
    (es : List MessageLike) (o : List BaseMessage) :
    renderList f es = .ok o ↔ renderList g es = .ok o := by
  induction es generalizing o with
  | nil => simp [renderList]
  | cons ml rest ih =>
    rw [renderList_cons_ok_iff, renderList_cons_ok_iff]
    constructor
    · rintro ⟨ms, tail, h1, h2, h3⟩
      exact ⟨ms, tail, (hfg ml ms).mp h1, (ih tail).mp h2, h3⟩
    · rintro ⟨ms, tail, h1, h2, h3⟩
      exact ⟨ms, tail, (hfg ml ms).mpr h1, (ih tail).mpr h2, h3⟩

/-- Mapping success-agreeing entry functions over a list of entries that
all succeed gives the same per-entry result lists. -/
theorem map_ok_transfer (f g : MessageLike → Except TemplateError (List BaseMessage))
    (hfg : ∀ ml o, f ml = .ok o ↔ g ml = .ok o)
    (es : List MessageLike) (ls : List (List BaseMessage))
    (h : es.map f = ls.map Except.ok) :
    es.map g = ls.map Except.ok := by
  induction es generalizing ls with
  | nil => cases ls <;> simp_all
  | cons ml rest ih =>
    cases ls with
    | nil => simp at h
    | cons ms ls =>
      simp only [List.map_cons, List.cons.injEq] at h ⊢
      exact ⟨(hfg ml ms).mp h.1, ih ls h.2⟩

/-! ### Concrete fixtures used by witnesses and counterexamples -/

/-- A rendering engine that always reports a missing variable named
`name`. -/
def engineMissingName : Engine :=
  fun _ _ => .error (.MissingVariable "name")

/-- A rendering engine that returns the raw template text unchanged. -/
def engineEcho : Engine :=
  fun t _ => .ok t.template

/-- A decoder that rejects every payload. -/
def decodeNone : Decoder :=
  fun _ => .error "invalid"

/-- A decoder that decodes the payload `HIST` to a two-message history and
rejects everything else. -/
def decodeHist : Decoder :=
  fun s =>
    if s == "HIST" then
      .ok [⟨.Human, "Hello, AI."⟩, ⟨.Ai, "Hi, how can I assist?"⟩]
    else .error "invalid"

/-! ### Claims about the format classifier -/

/-- Claim C7: every template string containing zero brace characters
classifies successfully as PlainText. -/
theorem no_braces_plain_text (s : String)
    (h : has_no_braces s.data = true) :
    TemplateFormat.from_template s = .ok .PlainText := by
  simp [TemplateFormat.from_template, is_valid_template, is_fmtstring, is_mustache,
    is_plain_text, has_only_single_braces, has_only_double_braces, h]

/-- Witness for C7 at the concrete brace-free string `Hello, world!`. -/
theorem no_braces_plain_text_witness :
    has_no_braces "Hello, world!".data = true ∧
    TemplateFormat.from_template "Hello, world!" = .ok .PlainText :=
  ⟨rfl, no_braces_plain_text "Hello, world!" rfl⟩

/-- Claim C6: every template string with at least one brace whose
left-brace count differs from its right-brace count classifies as
MalformedTemplate, whatever the brace style; imbalance decides before the
style checks are consulted. -/
theorem unbalanced_braces_malformed (s : String)
    (hbrace : 0 < count_left_braces s.data + count_right_braces s.data)
    (hne : count_left_braces s.data ≠ count_right_braces s.data) :
    TemplateFormat.from_template s
      = .error (.MalformedTemplate "Malformed template") := by
  have hnb : has_no_braces s.data = false := by
    cases hb : has_no_braces s.data
    · rfl
    · exfalso
      have h1 : count_left_braces s.data = 0 ∧ count_right_braces s.data = 0 := by
        simpa [has_no_braces] using hb
      omega
  simp [TemplateFormat.from_template, is_valid_template, hnb, hne]

/-- Witness for C6 at the concrete unbalanced double-style string. -/
theorem unbalanced_braces_malformed_witness :
    0 < count_left_braces "\x7b\x7bvar\x7d".data
          + count_right_braces "\x7b\x7bvar\x7d".data ∧
    count_left_braces "\x7b\x7bvar\x7d".data
        ≠ count_right_braces "\x7b\x7bvar\x7d".data ∧
    TemplateFormat.from_template "\x7b\x7bvar\x7d"
      = .error (.MalformedTemplate "Malformed template") :=
  ⟨by decide, by decide,
    unbalanced_braces_malformed "\x7b\x7bvar\x7d" (by decide) (by decide)⟩

/-- Counterexample to claim C1 as stated: the string consisting of a
single-brace span then a double-brace span has equal brace counts and
mixes the two styles, yet classification returns MalformedTemplate, not
UnsupportedFormat. -/
theorem mixed_styles_counterexample :
    count_left_braces "\x7ba\x7d \x7b\x7bb\x7d\x7d".data
        = count_right_braces "\x7ba\x7d \x7b\x7bb\x7d\x7d".data ∧
    has_no_braces "\x7ba\x7d \x7b\x7bb\x7d\x7d".data = false ∧
    has_only_single_braces "\x7ba\x7d \x7b\x7bb\x7d\x7d".data = false ∧
    has_only_double_braces "\x7ba\x7d \x7b\x7bb\x7d\x7d".data = false ∧
    TemplateFormat.from_template "\x7ba\x7d \x7b\x7bb\x7d\x7d"
      = .error (.MalformedTemplate "Malformed template") ∧
    resultIsUnsupported
        (TemplateFormat.from_template "\x7ba\x7d \x7b\x7bb\x7d\x7d") = false :=
  ⟨rfl, rfl, rfl, rfl, rfl, rfl⟩

/-- Claim C1 (amended): every template string with at least one brace,
equal brace counts, and neither the all-single nor the all-double brace
style (in particular every string mixing the two styles) classifies as
MalformedTemplate; UnsupportedFormat is never returned for such a
string. -/
theorem mixed_styles_balanced_malformed (s : String)
    (_hbal : count_left_braces s.data = count_right_braces s.data)
    (hnb : has_no_braces s.data = false)
    (hsingle : has_only_single_braces s.data = false)
    (hdouble : has_only_double_braces s.data = false) :
    TemplateFormat.from_template s
      = .error (.MalformedTemplate "Malformed template") := by
  simp [TemplateFormat.from_template, is_valid_template, hnb, hsingle, hdouble]

/-- Witness for the amended C1 at the concrete mixed-style string. -/
theorem mixed_styles_balanced_malformed_witness :
    count_left_braces "\x7bx\x7d and \x7b\x7by\x7d\x7d".data
        = count_right_braces "\x7bx\x7d and \x7b\x7by\x7d\x7d".data ∧
    has_no_braces "\x7bx\x7d and \x7b\x7by\x7d\x7d".data = false ∧
    has_only_single_braces "\x7bx\x7d and \x7b\x7by\x7d\x7d".data = false ∧
    has_only_double_braces "\x7bx\x7d and \x7b\x7by\x7d\x7d".data = false ∧
    TemplateFormat.from_template "\x7bx\x7d and \x7b\x7by\x7d\x7d"
      = .error (.MalformedTemplate "Malformed template") :=
  ⟨rfl, rfl, rfl, rfl,
    mixed_styles_balanced_malformed "\x7bx\x7d and \x7b\x7by\x7d\x7d" rfl rfl rfl rfl⟩

/-! ### Claims about the chat assembly pipeline -/

/-- Counterexample to claim C2 as stated: when the engine reports a
missing variable on a pending entry, the synchronous render
(`ChatPromptTemplate::format_messages`) does not fail with
MissingVariable — it wraps the engine error as MalformedTemplate carrying
the engine error's display text. -/
theorem engine_error_kind_counterexample :
    ChatPromptTemplate.format_messages engineMissingName decodeNone
        ⟨[.RolePromptTemplate .System ⟨"Hello, \x7bname\x7d!", .FmtString⟩]⟩ []
      = .error (.MalformedTemplate "Missing variable: name") ∧
    resultIsMissingVariable
        (ChatPromptTemplate.format_messages engineMissingName decodeNone
          ⟨[.RolePromptTemplate .System ⟨"Hello, \x7bname\x7d!", .FmtString⟩]⟩ [])
      = false :=
  ⟨rfl, rfl⟩

/-- Claim C2 (amended): when the engine fails on a pending (role,
template) entry and every earlier entry renders successfully, the whole
render fails carrying the original engine error text; the asynchronous
`ChatTemplate::format_messages` fails with the engine's error unchanged
(MissingVariable for a missing variable), while the synchronous
`ChatPromptTemplate::format_messages` fails with MalformedTemplate
wrapping the engine error's display text. -/
theorem engine_error_propagation (engine : Engine) (decode : Decoder)
    (vars : VarMap) (pre post : List MessageLike)
    (ls : List (List BaseMessage)) (role : Role) (template : Template)
    (e : TemplateError)
    (hpre : pre.map (formatEntrySync engine decode vars) = ls.map Except.ok)
    (heng : engine template vars = .error e) :
    ChatPromptTemplate.format_messages engine decode
        ⟨pre ++ .RolePromptTemplate role template :: post⟩ vars
      = .error (.MalformedTemplate e.display) ∧
    ChatTemplate.format_messages engine decode
        ⟨pre ++ .RolePromptTemplate role template :: post⟩ vars
      = .error e := by
  have hsync : formatEntrySync engine decode vars
      (.RolePromptTemplate role template) = .error (.MalformedTemplate e.display) := by
    simp [formatEntrySync, heng]
  have hasync : formatEntryAsync engine decode vars
      (.RolePromptTemplate role template) = .error e := by
    simp [formatEntryAsync, heng]
  have hpreA : pre.map (formatEntryAsync engine decode vars) = ls.map Except.ok :=
    map_ok_transfer _ _ (formatEntry_ok_iff engine decode vars) pre ls hpre
  constructor
  · show collectResults (flattenResults _) = _
    rw [sync_render_eq_renderList]
    apply renderList_first_error _ _ ls _
      (post.map (formatEntrySync engine decode vars))
    rw [List.map_append, List.map_cons, hpre, hsync]
  · show (collectResults _).map _ = _
    rw [async_render_eq_renderList]
    apply renderList_first_error _ _ ls _
      (post.map (formatEntryAsync engine decode vars))
    rw [List.map_append, List.map_cons, hpreA, hasync]

/-- Witness for the amended C2: one resolved entry then one pending entry
whose engine call reports a missing variable. -/
theorem engine_error_propagation_witness :
    ([MessageLike.BaseMessage ⟨.System, "S"⟩].map
        (formatEntrySync engineMissingName decodeNone [])
      = [[(⟨.System, "S"⟩ : BaseMessage)]].map Except.ok) ∧
    engineMissingName ⟨"Hello, \x7bname\x7d!", .FmtString⟩ []
      = .error (.MissingVariable "name") ∧
    ChatPromptTemplate.format_messages engineMissingName decodeNone
        ⟨[.BaseMessage ⟨.System, "S"⟩]
          ++ .RolePromptTemplate .Human ⟨"Hello, \x7bname\x7d!", .FmtString⟩ :: []⟩ []
      = .error (.MalformedTemplate "Missing variable: name") ∧
    ChatTemplate.format_messages engineMissingName decodeNone
        ⟨[.BaseMessage ⟨.System, "S"⟩]
          ++ .RolePromptTemplate .Human ⟨"Hello, \x7bname\x7d!", .FmtString⟩ :: []⟩ []
      = .error (.MissingVariable "name") := by
  have h := engine_error_propagation engineMissingName decodeNone []
    [MessageLike.BaseMessage ⟨.System, "S"⟩] []
    [[(⟨.System, "S"⟩ : BaseMessage)]] .Human
    ⟨"Hello, \x7bname\x7d!", .FmtString⟩ (.MissingVariable "name") rfl rfl
  exact ⟨rfl, rfl, h.1, h.2⟩

/-- Claim C3: rendering flattens the per-entry results in original entry
order (preserving intra-entry order), and when some entry fails, the
error of the lowest-indexed failing entry is the sole result — for both
the synchronous and the asynchronous `format_messages`. -/
theorem render_order_first_error (engine : Engine) (decode : Decoder)
    (vars : VarMap) (t : ChatPromptTemplate) (u : ChatTemplate) :
    (∀ (ls : List (List BaseMessage)),
        t.messages.map (formatEntrySync engine decode vars) = ls.map Except.ok →
        t.format_messages engine decode vars = .ok ls.flatten) ∧
    (∀ (pre : List (List BaseMessage)) (e : TemplateError)
        (post : List (Except TemplateError (List BaseMessage))),
        t.messages.map (formatEntrySync engine decode vars)
          = pre.map Except.ok ++ .error e :: post →
        t.format_messages engine decode vars = .error e) ∧
    (∀ (ls : List (List BaseMessage)),
        u.messages.map (formatEntryAsync engine decode vars) = ls.map Except.ok →
        u.format_messages engine decode vars = .ok ls.flatten) ∧
    (∀ (pre : List (List BaseMessage)) (e : TemplateError)
        (post : List (Except TemplateError (List BaseMessage))),
        u.messages.map (formatEntryAsync engine decode vars)
          = pre.map Except.ok ++ .error e :: post →
        u.format_messages engine decode vars = .error e) := by
  refine ⟨fun ls h => ?_, fun pre e post h => ?_, fun ls h => ?_, fun pre e post h => ?_⟩
  · show collectResults (flattenResults _) = _
    rw [sync_render_eq_renderList]
    exact renderList_all_ok _ _ ls h
  · show collectResults (flattenResults _) = _
    rw [sync_render_eq_renderList]
    exact renderList_first_error _ _ pre e post h
  · show (collectResults _).map _ = _
    rw [async_render_eq_renderList]
    exact renderList_all_ok _ _ ls h
  · show (collectResults _).map _ = _
    rw [async_render_eq_renderList]
    exact renderList_first_error _ _ pre e post h

/-- Witness for C3: a two-entry template rendering to two messages in
order, and a template whose second entry fails with the sole error. -/
theorem render_order_first_error_witness :
    ChatPromptTemplate.format_messages engineEcho decodeNone
        ⟨[.BaseMessage ⟨.System, "A"⟩, .BaseMessage ⟨.Human, "B"⟩]⟩ []
      = .ok [⟨.System, "A"⟩, ⟨.Human, "B"⟩] ∧
    ChatTemplate.format_messages engineEcho decodeNone
        ⟨[.BaseMessage ⟨.System, "A"⟩, .BaseMessage ⟨.Human, "B"⟩]⟩ []
      = .ok [⟨.System, "A"⟩, ⟨.Human, "B"⟩] ∧
    ChatPromptTemplate.format_messages engineEcho decodeNone
        ⟨[.BaseMessage ⟨.System, "A"⟩, .Placeholder ⟨"history", false, 1000⟩]⟩ []
      = .error (.MissingVariable "history") ∧
    ChatTemplate.format_messages engineEcho decodeNone
        ⟨[.BaseMessage ⟨.System, "A"⟩, .Placeholder ⟨"history", false, 1000⟩]⟩ []
      = .error (.MissingVariable "history") := by
  refine ⟨?_, ?_, ?_, ?_⟩
  · exact (render_order_first_error engineEcho decodeNone []
      ⟨[.BaseMessage ⟨.System, "A"⟩, .BaseMessage ⟨.Human, "B"⟩]⟩ ⟨[]⟩).1
      [[⟨.System, "A"⟩], [⟨.Human, "B"⟩]] rfl
  · exact (render_order_first_error engineEcho decodeNone []
      ⟨[]⟩ ⟨[.BaseMessage ⟨.System, "A"⟩, .BaseMessage ⟨.Human, "B"⟩]⟩).2.2.1
      [[⟨.System, "A"⟩], [⟨.Human, "B"⟩]] rfl
  · exact (render_order_first_error engineEcho decodeNone []
      ⟨[.BaseMessage ⟨.System, "A"⟩, .Placeholder ⟨"history", false, 1000⟩]⟩ ⟨[]⟩).2.1
      [[⟨.System, "A"⟩]] (.MissingVariable "history") [] rfl
  · exact (render_order_first_error engineEcho decodeNone []
      ⟨[]⟩ ⟨[.BaseMessage ⟨.System, "A"⟩, .Placeholder ⟨"history", false, 1000⟩]⟩).2.2.2
      [[⟨.System, "A"⟩]] (.MissingVariable "history") [] rfl

/-- Claim C4: a non-optional placeholder whose variable decodes to a
message list emits, under a positive limit k, exactly the first
min(k, m) decoded messages in their original order, and under a limit of
zero or less the full decoded list, in both renders. -/
theorem placeholder_truncation (engine : Engine) (decode : Decoder)
    (vars : VarMap) (p : MessagesPlaceholder) (payload : String)
    (msgs : List BaseMessage)
    (hopt : p.optional = false)
    (hlook : lookupVar vars p.variable_name = some payload)
    (hdec : decode payload = .ok msgs) :
    (0 < p.n_messages →
      formatEntrySync engine decode vars (.Placeholder p)
          = .ok (msgs.take p.n_messages.toNat) ∧
      formatEntryAsync engine decode vars (.Placeholder p)
          = .ok (msgs.take p.n_messages.toNat) ∧
      (msgs.take p.n_messages.toNat).length
          = min p.n_messages.toNat msgs.length) ∧
    (p.n_messages ≤ 0 →
      formatEntrySync engine decode vars (.Placeholder p) = .ok msgs ∧
      formatEntryAsync engine decode vars (.Placeholder p) = .ok msgs) := by
  constructor
  · intro hk
    refine ⟨?_, ?_, List.length_take _ _⟩ <;>
      simp [formatEntrySync, formatEntryAsync, formatPlaceholder,
        hopt, hlook, hdec, hk]
  · intro hk
    have hk' : ¬ 0 < p.n_messages := not_lt.mpr hk
    constructor <;>
      simp [formatEntrySync, formatEntryAsync, formatPlaceholder,
        hopt, hlook, hdec, hk']

/-- Witness for C4: limit 1 on a two-message history keeps only the first
message; limit 0 keeps both. -/
theorem placeholder_truncation_witness :
    formatEntrySync engineEcho decodeHist [("history", "HIST")]
        (.Placeholder ⟨"history", false, 1⟩)
      = .ok [⟨.Human, "Hello, AI."⟩] ∧
    formatEntryAsync engineEcho decodeHist [("history", "HIST")]
        (.Placeholder ⟨"history", false, 1⟩)
      = .ok [⟨.Human, "Hello, AI."⟩] ∧
    formatEntrySync engineEcho decodeHist [("history", "HIST")]
        (.Placeholder ⟨"history", false, 0⟩)
      = .ok [⟨.Human, "Hello, AI."⟩, ⟨.Ai, "Hi, how can I assist?"⟩] ∧
    formatEntryAsync engineEcho decodeHist [("history", "HIST")]
        (.Placeholder ⟨"history", false, 0⟩)
      = .ok [⟨.Human, "Hello, AI."⟩, ⟨.Ai, "Hi, how can I assist?"⟩] := by
  have h1 := (placeholder_truncation engineEcho decodeHist [("history", "HIST")]
    ⟨"history", false, 1⟩ "HIST"
    [⟨.Human, "Hello, AI."⟩, ⟨.Ai, "Hi, how can I assist?"⟩]
    rfl rfl rfl).1 (by decide)
  have h0 := (placeholder_truncation engineEcho decodeHist [("history", "HIST")]
    ⟨"history", false, 0⟩ "HIST"
    [⟨.Human, "Hello, AI."⟩, ⟨.Ai, "Hi, how can I assist?"⟩]
    rfl rfl rfl).2 (by decide)
  exact ⟨h1.1, h1.2.1, h0.1, h0.2⟩

/-- Claim C5: an optional placeholder renders to zero messages under
every variable mapping, without requiring its variable to be present; a
non-optional placeholder whose variable is absent from the mapping fails
with MissingVariable of its variable name — in both renders. -/
theorem placeholder_optional_and_missing (engine : Engine) (decode : Decoder)
    (vars : VarMap) (p : MessagesPlaceholder) :
    (p.optional = true →
      formatEntrySync engine decode vars (.Placeholder p) = .ok [] ∧
      formatEntryAsync engine decode vars (.Placeholder p) = .ok []) ∧
    (p.optional = false →
      lookupVar vars p.variable_name = none →
      formatEntrySync engine decode vars (.Placeholder p)
          = .error (.MissingVariable p.variable_name) ∧
      formatEntryAsync engine decode vars (.Placeholder p)
          = .error (.MissingVariable p.variable_name)) := by
  constructor
  · intro hopt
    constructor <;> simp [formatEntrySync, formatEntryAsync, formatPlaceholder, hopt]
  · intro hopt hlook
    constructor <;>
      simp [formatEntrySync, formatEntryAsync, formatPlaceholder, hopt, hlook]

/-- Witness for C5: an optional placeholder with no mapping entry renders
to no messages; a required one with no mapping entry fails with
MissingVariable. -/
theorem placeholder_optional_and_missing_witness :
    formatEntrySync engineEcho decodeNone []
        (.Placeholder ⟨"history", true, 1000⟩) = .ok [] ∧
    formatEntryAsync engineEcho decodeNone []
        (.Placeholder ⟨"history", true, 1000⟩) = .ok [] ∧
    formatEntrySync engineEcho decodeNone []
        (.Placeholder ⟨"history", false, 1000⟩)
      = .error (.MissingVariable "history") ∧
    formatEntryAsync engineEcho decodeNone []
        (.Placeholder ⟨"history", false, 1000⟩)
      = .error (.MissingVariable "history") := by
  have hopt := (placeholder_optional_and_missing engineEcho decodeNone []
    ⟨"history", true, 1000⟩).1 rfl
  have hmiss := (placeholder_optional_and_missing engineEcho decodeNone []
    ⟨"history", false, 1000⟩).2 rfl rfl
  exact ⟨hopt.1, hopt.2, hmiss.1, hmiss.2⟩

/-- Claim C8: concatenation of chat templates is associative on entry
sequences, with the empty template as two-sided identity, for both the
synchronous and the asynchronous type. -/
theorem combine_assoc_identity (a b c : ChatPromptTemplate)
    (x y z : ChatTemplate) :
    ((a.add b).add c).messages = (a.add (b.add c)).messages ∧
    (ChatPromptTemplate.empty.add a).messages = a.messages ∧
    (a.add ChatPromptTemplate.empty).messages = a.messages ∧
    ((x.add y).add z).messages = (x.add (y.add z)).messages ∧
    (ChatTemplate.empty.add x).messages = x.messages ∧
    (x.add ChatTemplate.empty).messages = x.messages := by
  simp [ChatPromptTemplate.add, ChatTemplate.add,
    ChatPromptTemplate.empty, ChatTemplate.empty, List.append_assoc]

/-- Claim C9: `from_messages` on the empty list succeeds with an empty
template, and rendering the empty template under any engine, decoder and
variable mapping yields the empty message list, in both pipelines. -/
theorem empty_chat_template_render :
    ChatPromptTemplate.from_messages [] = .ok ⟨[]⟩ ∧
    ChatTemplate.from_messages [] = .ok ⟨[]⟩ ∧
    ∀ (engine : Engine) (decode : Decoder) (vars : VarMap),
      ChatPromptTemplate.format_messages engine decode ⟨[]⟩ vars = .ok [] ∧
      ChatTemplate.format_messages engine decode ⟨[]⟩ vars = .ok [] :=
  ⟨rfl, rfl, fun _ _ _ => ⟨rfl, rfl⟩⟩

/-- Claim C10: the synchronous pipeline (ChatPromptTemplate) and the
asynchronous pipeline (ChatTemplate), run from the same (role, template)
pairs through construction and rendering with the same engine, decoder and
variables, succeed on exactly the same inputs and produce identical
message sequences whenever they succeed. -/
theorem sync_async_equivalence (msgs : List (Role × String)) (engine : Engine)
    (decode : Decoder) (vars : VarMap) :
    ((∃ out, (ChatPromptTemplate.from_messages msgs).bind
          (fun t => t.format_messages engine decode vars) = .ok out) ↔
      (∃ out, (ChatTemplate.from_messages msgs).bind
          (fun t => t.format_messages engine decode vars) = .ok out)) ∧
    ∀ out,
      (ChatPromptTemplate.from_messages msgs).bind
          (fun t => t.format_messages engine decode vars) = .ok out ↔
      (ChatTemplate.from_messages msgs).bind
          (fun t => t.format_messages engine decode vars) = .ok out := by
  have key : ∀ out,
      (ChatPromptTemplate.from_messages msgs).bind
          (fun t => t.format_messages engine decode vars) = .ok out ↔
      (ChatTemplate.from_messages msgs).bind
          (fun t => t.format_messages engine decode vars) = .ok out := by
    intro out
    cases h : buildEntries msgs with
    | error e =>
      have hs : (ChatPromptTemplate.from_messages msgs).bind
          (fun t => t.format_messages engine decode vars) = .error e := by
        simp only [ChatPromptTemplate.from_messages, h, Except.map, Except.bind]
      have ha : (ChatTemplate.from_messages msgs).bind
          (fun t => t.format_messages engine decode vars) = .error e := by
        simp only [ChatTemplate.from_messages, h, Except.map, Except.bind]
      rw [hs, ha]
    | ok entries =>
      have hs : (ChatPromptTemplate.from_messages msgs).bind
          (fun t => t.format_messages engine decode vars)
          = renderList (formatEntrySync engine decode vars) entries := by
        have h1 : (ChatPromptTemplate.from_messages msgs).bind
            (fun t => t.format_messages engine decode vars)
            = ChatPromptTemplate.format_messages engine decode ⟨entries⟩ vars := by
          simp only [ChatPromptTemplate.from_messages, h, Except.map, Except.bind]
        rw [h1]
        exact sync_render_eq_renderList _ _
      have ha : (ChatTemplate.from_messages msgs).bind
          (fun t => t.format_messages engine decode vars)
          = renderList (formatEntryAsync engine decode vars) entries := by
        have h1 : (ChatTemplate.from_messages msgs).bind
            (fun t => t.format_messages engine decode vars)
            = ChatTemplate.format_messages engine decode ⟨entries⟩ vars := by
          simp only [ChatTemplate.from_messages, h, Except.map, Except.bind]
        rw [h1]
        exact async_render_eq_renderList _ _
      rw [hs, ha]
      exact renderList_ok_iff _ _
        (fun ml o => formatEntry_ok_iff engine decode vars ml o) entries out
  exact ⟨exists_congr key, key⟩

end PromptForge
